import Mathlib

/-
Verification of the Brainchild client-side utility module
(src/static/js/main.js) against its natural-language specification.

The JavaScript source is shallowly embedded below: pure helpers become
Lean functions over Nat / String; DOM-holding helpers (buttons, the
confirmation modal, the debounce wrapper) become explicit state records
and trace semantics.  Machine arithmetic in the source is ordinary
JavaScript number arithmetic on small integers, embedded as Nat;
the floating-point Math.log / toFixed pipeline of formatBytes is
embedded as the exact base-1024 logarithm (Nat.log) and exact
half-up rounding over the rationals.
-/

namespace Brainchild

/-! ## Configuration (Brainchild.config, main.js lines 9-14) -/

def animationDuration : ℕ := 300

def debounceDelay : ℕ := 300

/-- Brainchild.config.maxFileSize = 16 * 1024 * 1024 (16MB). -/
def maxFileSize : ℕ := 16 * 1024 * 1024

/-- Brainchild.config.allowedImageTypes. -/
def allowedImageTypes : List String :=
  [ "image/jpeg", "image/jpg", "image/png", "image/gif", "image/webp" ]

/-! ## Shared result record: the source's plain objects of shape
    valid-flag plus message, used by validateImageFile and the custom
    validators. -/

structure VResult where
  valid : Bool
  message : String
deriving DecidableEq, Repr

/-! ## formatBytes (Brainchild.utils.formatBytes, main.js lines 45-52)

    JS: if (bytes === 0) return a zero string; otherwise take
    i = floor(log(bytes)/log(1024)), divide by 1024^i, round via
    toFixed(dm), strip trailing zeros via parseFloat, and append
    sizes[i] where sizes = [Bytes, KB, MB, GB].  When i is out of
    range, JS string concatenation of the undefined array element
    produces the literal text undefined, which the embedding keeps. -/

def sizes : List String := [ "Bytes", "KB", "MB", "GB" ]

/-- Strip up to d trailing decimal zeros from the scaled integer n,
    returning the reduced integer and the decimal digits kept.
    This models what parseFloat does to the output of toFixed. -/
def stripZeros : ℕ → ℕ → ℕ × ℕ
  | n, 0 => (n, 0)
  | n, d + 1 => if n % 10 = 0 then stripZeros (n / 10) d else (n, d + 1)

/-- Left-pad a numeral with zeros to d digits. -/
def padZeros (s : String) (d : ℕ) : String :=
  String.mk (List.replicate (d - s.length) '0') ++ s

/-- Render the scaled integer n (value times 10^dm) as the decimal
    numeral parseFloat(x.toFixed(dm)) prints: trailing fractional
    zeros dropped, and no decimal point when none remain. -/
def decRender (n : ℕ) (dm : ℕ) : String :=
  let p := stripZeros n dm
  if p.2 = 0 then toString p.1
  else toString (p.1 / 10 ^ p.2) ++ "." ++ padZeros (toString (p.1 % 10 ^ p.2)) p.2

/-- The scaled rounded value: round(bytes / 1024^i * 10^decimals) with
    i = floor of the base-1024 logarithm, as an integer of 10^decimals-ths. -/
def fbNum (bytes : ℕ) (decimals : ℕ) : ℕ :=
  (round ((bytes : ℚ) / 1024 ^ Nat.log 1024 bytes * 10 ^ decimals)).toNat

/-- Brainchild.utils.formatBytes.  The source takes dm = decimals < 0 ? 0
    : decimals; decimals is embedded as Nat, so that clamp is the
    identity (every claim concerns the default decimals = 2). -/
def formatBytes (bytes : ℕ) (decimals : ℕ := 2) : String :=
  if bytes = 0 then "0 Bytes"
  else decRender (fbNum bytes decimals) decimals ++ " " ++
    (sizes.getD (Nat.log 1024 bytes) "undefined")

/-! ## validateImageFile (Brainchild.utils.validateImageFile, lines 57-75) -/

/-- The fields of a selected file the source reads: declared MIME type
    and size in bytes. -/
structure JFile where
  type : String
  size : ℕ
deriving DecidableEq, Repr

def noFileMsg : String := "Nenhum arquivo selecionado"

def badTypeMsg : String := "Tipo de arquivo não permitido. Use: JPG, PNG, GIF ou WEBP"

def tooBigMsg : String := "Arquivo muito grande. Máximo: " ++ formatBytes maxFileSize

def validFileMsg : String := "Arquivo válido"

/-- Brainchild.utils.validateImageFile: absent file, then type not in
    the allow-set, then size over the maximum, else valid. -/
def validateImageFile : Option JFile → VResult
  | none => { valid := false, message := noFileMsg }
  | some file =>
    if !(allowedImageTypes.contains file.type) then
      { valid := false, message := badTypeMsg }
    else if maxFileSize < file.size then
      { valid := false, message := tooBigMsg }
    else
      { valid := true, message := validFileMsg }

/-! ## escapeHtml (Brainchild.utils.escapeHtml, lines 87-96)

    JS: text.replace over the single-character class of the five
    HTML-significant characters, each mapped to its entity.  A global
    single-character replace is exactly a character-wise map-and-join. -/

/-- The per-character replacement table of escapeHtml, each entity
    spelled out as its characters. -/
def escapeMap (c : Char) : List Char :=
  if c = '&' then ['&', 'a', 'm', 'p', ';']
  else if c = '<' then ['&', 'l', 't', ';']
  else if c = '>' then ['&', 'g', 't', ';']
  else if c = '"' then ['&', 'q', 'u', 'o', 't', ';']
  else if c = '\'' then ['&', '#', '0', '3', '9', ';']
  else [c]

/-- Brainchild.utils.escapeHtml. -/
def escapeHtml (text : String) : String :=
  String.mk (text.data.map escapeMap).flatten

/-- An ampersand is non-literal (escaped) when what follows it spells
    one of the five entity tails the table produces. -/
def entityTail (cs : List Char) : Bool :=
  match cs with
  | 'a' :: 'm' :: 'p' :: ';' :: _ => true
  | 'l' :: 't' :: ';' :: _ => true
  | 'g' :: 't' :: ';' :: _ => true
  | 'q' :: 'u' :: 'o' :: 't' :: ';' :: _ => true
  | '#' :: '0' :: '3' :: '9' :: ';' :: _ => true
  | _ => false

/-- No literal (bare) ampersand: every ampersand in the list starts an
    HTML entity from the escape table. -/
def noBareAmp : List Char → Bool
  | [] => true
  | c :: cs => ((c != '&') || entityTail cs) && noBareAmp cs

/-! ## Form validation (Brainchild.forms, main.js lines 291-425)

    A field is embedded by the pieces of DOM state validateField reads:
    its raw value, its required flag, its type attribute, parsed
    minlength / maxlength attributes (absent when the attribute is
    missing), and the data-validate attribute naming a custom
    validator. -/

/-- The whitespace class of JavaScript (the regex class backslash-s,
    also used by String.prototype.trim). -/
def isJsWs (c : Char) : Bool :=
  c == ' ' || c == '\t' || c == '\n' || c == '\x0b' || c == '\x0c' || c == '\r' ||
  c.val == 0x00A0 || c.val == 0x1680 ||
  (decide (0x2000 ≤ c.val) && decide (c.val ≤ 0x200A)) ||
  c.val == 0x2028 || c.val == 0x2029 || c.val == 0x202F || c.val == 0x205F ||
  c.val == 0x3000 || c.val == 0xFEFF

/-- JavaScript String.prototype.trim: drop leading and trailing
    whitespace. -/
def jsTrim (s : String) : String :=
  String.mk (((s.data.dropWhile isJsWs).reverse.dropWhile isJsWs).reverse)

/-- A character the email regex character class accepts: anything
    that is not whitespace and not an at-sign. -/
def emailChar (c : Char) : Bool :=
  !(isJsWs c) && c != '@'

/-- The domain part of the email regex demands a dot with at least one
    accepted character on each side. -/
def hasInteriorDot (l : List Char) : Bool :=
  (List.range l.length).any fun i =>
    decide (0 < i) && decide (i + 1 < l.length) && (l.getD i ' ' == '.')

/-- The email test of validateField: the anchored regex of one or more
    non-space non-at characters, an at-sign, more such characters, a
    dot, and more such characters.  Equivalently: exactly one at-sign,
    a nonempty accepted local part, and an accepted domain containing
    an interior dot. -/
def emailTest (s : String) : Bool :=
  match s.data.splitOn '@' with
  | [localPart, domain] =>
    !localPart.isEmpty && localPart.all emailChar &&
      domain.all emailChar && hasInteriorDot domain
  | _ => false

def requiredFieldMsg : String := "Este campo é obrigatório"

def emailInvalidMsg : String := "Email inválido"

def minMsg (m : ℕ) : String := "Mínimo " ++ toString m ++ " caracteres"

def maxMsg (m : ℕ) : String := "Máximo " ++ toString m ++ " caracteres"

def usernameMsg : String := "Username deve conter apenas letras, números e underscore"

def passwordShortMsg : String := "Senha deve ter pelo menos 6 caracteres"

def passwordLetterMsg : String := "Senha deve conter pelo menos uma letra"

def passwordDigitMsg : String := "Senha deve conter pelo menos um número"

/-- Brainchild.forms.customValidations.username: the anchored regex of
    one or more ASCII letters, digits or underscores; the message field
    is always the username message, as in the source. -/
def username (value : String) : VResult :=
  { valid := !value.data.isEmpty &&
      value.data.all (fun c => Char.isAlpha c || Char.isDigit c || c == '_'),
    message := usernameMsg }

/-- Brainchild.forms.customValidations.password: length below six,
    then no ASCII letter, then no digit, else valid. -/
def password (value : String) : VResult :=
  if value.length < 6 then { valid := false, message := passwordShortMsg }
  else if !(value.data.any Char.isAlpha) then { valid := false, message := passwordLetterMsg }
  else if !(value.data.any Char.isDigit) then { valid := false, message := passwordDigitMsg }
  else { valid := true, message := "" }

/-- The fixed registry Brainchild.forms.customValidations, looked up by
    the data-validate attribute value. -/
def customValidations (name : String) : Option (String → VResult) :=
  if name = "username" then some username
  else if name = "password" then some password
  else none

/-- The DOM state of a form field that validateField reads. -/
structure Field where
  value : String
  required : Bool
  type : String
  minlength : Option ℕ
  maxlength : Option ℕ
  dataValidate : Option String
deriving DecidableEq, Repr

/-- Brainchild.forms.validateField, lines 316-365.  The source trims
    the raw value once, then runs the five rules in order, each failing
    rule overwriting the pair of validity flag and message; the final
    pair is what updateFieldValidationState displays (first component:
    the returned isValid; second: the displayed message). -/
def validateField (f : Field) : Bool × String :=
  let value := jsTrim f.value
  let st1 : Bool × String :=
    if f.required = true ∧ value = "" then (false, requiredFieldMsg) else (true, "")
  let st2 :=
    if f.type = "email" ∧ value ≠ "" ∧ emailTest value = false
    then (false, emailInvalidMsg) else st1
  let st3 :=
    match f.minlength with
    | some m => if 0 < value.length ∧ value.length < m then (false, minMsg m) else st2
    | none => st2
  let st4 :=
    match f.maxlength with
    | some m => if m < value.length then (false, maxMsg m) else st3
    | none => st3
  let st5 :=
    match f.dataValidate with
    | some name =>
      match customValidations name with
      | some cv => if (cv value).valid = false then (false, (cv value).message) else st4
      | none => st4
    | none => st4
  st5

/-! ## setButtonLoading (Brainchild.ui.setButtonLoading, lines 244-257) -/

/-- The DOM state of a button that setButtonLoading reads and writes:
    its markup, its disabled flag, and the stashed data-original-text
    attribute. -/
structure Button where
  innerHTML : String
  disabled : Bool
  originalText : Option String
deriving DecidableEq, Repr

/-- The spinner markup the source substitutes while loading. -/
def spinnerHtml (loadingText : String) : String :=
  "<span class=\"spinner-border spinner-border-sm me-2\"></span>" ++ loadingText

/-- Brainchild.ui.setButtonLoading.  Entering the loading state stashes
    the markup and disables the button; leaving it restores the stash
    when present, and unconditionally re-enables the button. -/
def setButtonLoading (button : Button) (loading : Bool := true)
    (loadingText : String := "Carregando...") : Button :=
  if loading then
    { innerHTML := spinnerHtml loadingText, disabled := true,
      originalText := some button.innerHTML }
  else
    match button.originalText with
    | some t => { innerHTML := t, disabled := false, originalText := none }
    | none => { button with disabled := false }

/-! ## showConfirmModal (Brainchild.ui.showConfirmModal, lines 188-214)

    Trace semantics.  The modal is created with click listeners on its
    two buttons and a removal listener on the hidden event of the host
    widget library; nothing ever detaches the click listeners before
    the modal leaves the document, and no flag guards the callbacks.
    A run is the list of events the page delivers: button clicks and
    the single hidden notification after which the element is removed
    (covering confirm, cancel and outside dismissal alike).  The run
    returns the callbacks invoked, in order. -/

inductive MEvent where
  | clickConfirm : MEvent
  | clickCancel : MEvent
  | hiddenEvt : MEvent
deriving DecidableEq, Repr

inductive CbKind where
  | confirm : CbKind
  | cancel : CbKind
deriving DecidableEq, Repr

/-- Which of the two callbacks were actually passed (the source guards
    each invocation with an if on the callback argument). -/
structure ModalHandlers where
  onConfirm : Bool
  onCancel : Bool
deriving DecidableEq, Repr

/-- One modal run: the Boolean is whether the modal element is still in
    the document (listeners alive); the hidden event removes it. -/
def modalRun (h : ModalHandlers) : Bool → List MEvent → List CbKind
  | _, [] => []
  | attached, e :: es =>
    match e with
    | .hiddenEvt => modalRun h false es
    | .clickConfirm =>
      (if attached && h.onConfirm then [CbKind.confirm] else []) ++ modalRun h attached es
    | .clickCancel =>
      (if attached && h.onCancel then [CbKind.cancel] else []) ++ modalRun h attached es

/-- Brainchild.ui.showConfirmModal as a trace function: the modal
    starts attached. -/
def showConfirmModalRun (h : ModalHandlers) (events : List MEvent) : List CbKind :=
  modalRun h true events

/-- Button clicks delivered before the modal is removed. -/
def countClicks (events : List MEvent) : ℕ :=
  (events.takeWhile fun e => e != MEvent.hiddenEvt).countP
    fun e => e == MEvent.clickConfirm || e == MEvent.clickCancel

/-- window.showConfirmModal (lines 640-642) forwards its one callback
    argument as onConfirm only; no cancel handler is passed. -/
def windowModalHandlers (callbackPassed : Bool) : ModalHandlers :=
  { onConfirm := callbackPassed, onCancel := false }

/-! ## debounce (Brainchild.utils.debounce, lines 30-40)

    Trace semantics over a timeline.  Each call clears the pending
    timer and schedules the wrapped function with the arguments of
    that call, wait milliseconds later; a pending timer scheduled at
    time t fires at t + wait unless another call arrives strictly
    before that moment.  Input: the calls as (time, argument) pairs in
    chronological order; output: the invocations of the wrapped
    function as (time, argument) pairs. -/

def debounceRun {α : Type} (wait : ℕ) : List (ℕ × α) → List (ℕ × α)
  | [] => []
  | (t, a) :: rest =>
    match rest with
    | [] => [(t + wait, a)]
    | (t2, _) :: _ =>
      if t2 < t + wait then debounceRun wait rest
      else (t + wait, a) :: debounceRun wait rest

/-- A burst: each call arrives strictly before the previous call's
    timer would fire. -/
def burstGaps {α : Type} (wait : ℕ) : List (ℕ × α) → Bool
  | [] => true
  | [_] => true
  | p :: q :: rest => decide (q.1 < p.1 + wait) && burstGaps wait (q :: rest)

/-! ## Helper lemmas -/

lemma escapeMap_no_markup (c : Char) :
    ∀ d ∈ escapeMap c, d ≠ '<' ∧ d ≠ '>' ∧ d ≠ '"' ∧ d ≠ '\'' := by
  by_cases h1 : c = '&'
  · subst h1; decide
  by_cases h2 : c = '<'
  · subst h2; decide
  by_cases h3 : c = '>'
  · subst h3; decide
  by_cases h4 : c = '"'
  · subst h4; decide
  by_cases h5 : c = '\''
  · subst h5; decide
  unfold escapeMap
  rw [if_neg h1, if_neg h2, if_neg h3, if_neg h4, if_neg h5]
  intro d hd
  rw [List.mem_singleton] at hd
  subst hd
  exact ⟨h2, h3, h4, h5⟩

lemma noBareAmp_escapeMap_append (c : Char) (l : List Char)
    (hl : noBareAmp l = true) : noBareAmp (escapeMap c ++ l) = true := by
  by_cases h1 : c = '&'
  · subst h1; exact hl
  by_cases h2 : c = '<'
  · subst h2; exact hl
  by_cases h3 : c = '>'
  · subst h3; exact hl
  by_cases h4 : c = '"'
  · subst h4; exact hl
  by_cases h5 : c = '\''
  · subst h5; exact hl
  unfold escapeMap
  rw [if_neg h1, if_neg h2, if_neg h3, if_neg h4, if_neg h5]
  have hc : (c != '&') = true := by simpa using h1
  show (((c != '&') || entityTail l) && noBareAmp l) = true
  rw [hc, hl]
  rfl

lemma modalRun_detached (h : ModalHandlers) (es : List MEvent) :
    modalRun h false es = [] := by
  induction es with
  | nil => rfl
  | cons e es ih => cases e <;> simp [modalRun, ih]

lemma modalRun_cancel_not_mem (h : ModalHandlers) (hc : h.onCancel = false)
    (att : Bool) (es : List MEvent) : CbKind.cancel ∉ modalRun h att es := by
  induction es generalizing att with
  | nil => simp [modalRun]
  | cons e es ih =>
    cases e with
    | hiddenEvt => simpa [modalRun] using ih false
    | clickConfirm =>
      simp only [modalRun, List.mem_append]
      rintro (hmem | hmem)
      · revert hmem; split <;> simp
      · exact ih att hmem
    | clickCancel =>
      simp only [modalRun, List.mem_append]
      rintro (hmem | hmem)
      · simp [hc] at hmem
      · exact ih att hmem

lemma modalRun_nil_of_no_confirm (h : ModalHandlers) (hc : h.onCancel = false)
    (att : Bool) (es : List MEvent) (hno : ∀ e ∈ es, e ≠ MEvent.clickConfirm) :
    modalRun h att es = [] := by
  induction es generalizing att with
  | nil => rfl
  | cons e es ih =>
    cases e with
    | hiddenEvt => exact ih false fun e he => hno e (List.mem_cons_of_mem _ he)
    | clickConfirm => exact absurd rfl (hno _ (List.mem_cons_self _ _))
    | clickCancel =>
      simpa [modalRun, hc] using ih att fun e he => hno e (List.mem_cons_of_mem _ he)

lemma modalRun_nil_of_no_clicks (h : ModalHandlers) (es : List MEvent)
    (hz : countClicks es = 0) : modalRun h true es = [] := by
  induction es with
  | nil => rfl
  | cons e es ih =>
    cases e with
    | hiddenEvt => simp [modalRun, modalRun_detached]
    | clickConfirm =>
      simp [countClicks, List.takeWhile_cons, List.countP_cons] at hz
    | clickCancel =>
      simp [countClicks, List.takeWhile_cons, List.countP_cons] at hz

lemma validateField_invalid_of_required_empty (f : Field) (hreq : f.required = true)
    (h : jsTrim f.value = "") :
    (validateField f).1 = false ∧
    (f.dataValidate = none → validateField f = (false, requiredFieldMsg)) := by
  obtain ⟨v, req, ty, mn, mx, dv⟩ := f
  simp only [Field.required] at hreq
  simp only [Field.value] at h
  subst hreq
  constructor
  · simp only [validateField, h]
    rcases mn with _ | m <;> rcases mx with _ | m2 <;> rcases dv with _ | name <;> simp
    all_goals split
    all_goals try rfl
    all_goals split <;> rfl
  · rintro rfl
    simp only [validateField, h]
    rcases mn with _ | m <;> rcases mx with _ | m2 <;> simp

lemma jsTrim_empty_of_all_ws (s : String) (hws : s.data.all isJsWs = true) :
    jsTrim s = "" := by
  have h1 : s.data.dropWhile isJsWs = [] :=
    List.dropWhile_eq_nil_iff.mpr (by simpa [List.all_eq_true] using hws)
  simp [jsTrim, h1]

lemma round_div_100_close (x : ℚ) :
    |((round (x * 10 ^ 2) : ℤ) : ℚ) / 100 - x| ≤ 1 / 200 := by
  have h : |x * 10 ^ 2 - round (x * 10 ^ 2)| ≤ 1 / 2 := abs_sub_round (x * 10 ^ 2)
  have heq : ((round (x * 10 ^ 2) : ℤ) : ℚ) / 100 - x =
      -((x * 10 ^ 2 - ((round (x * 10 ^ 2) : ℤ) : ℚ)) / 100) := by ring
  rw [heq, abs_neg, abs_div]
  rw [show |(100 : ℚ)| = 100 by norm_num]
  calc |x * 10 ^ 2 - ((round (x * 10 ^ 2) : ℤ) : ℚ)| / 100 ≤ (1 / 2) / 100 := by gcongr
    _ = 1 / 200 := by norm_num

/-! ## Claim theorems -/

/-- C2: for every input string s, escapeHtml s contains no literal
    markup character: none of the characters less-than, greater-than,
    double-quote, apostrophe occurs at all, and every ampersand in the
    output is non-literal, i.e. begins one of the five HTML entities;
    moreover escapeHtml is exactly the character-wise replacement of
    each of the five significant characters by its entity equivalent. -/
theorem escapeHtml_spec (s : String) :
    (∀ c ∈ (escapeHtml s).data, c ≠ '<' ∧ c ≠ '>' ∧ c ≠ '"' ∧ c ≠ '\'') ∧
    noBareAmp (escapeHtml s).data = true ∧
    (escapeHtml s).data = (s.data.map escapeMap).flatten ∧
    escapeMap '&' = "&amp;".data ∧ escapeMap '<' = "&lt;".data ∧
    escapeMap '>' = "&gt;".data ∧ escapeMap '"' = "&quot;".data ∧
    escapeMap '\'' = "&#039;".data := by
  refine ⟨?_, ?_, rfl, by decide, by decide, by decide, by decide, by decide⟩
  · show ∀ c ∈ (s.data.map escapeMap).flatten, _
    induction s.data with
    | nil => simp
    | cons c cs ih =>
      simp only [List.map_cons, List.flatten_cons]
      intro d hd
      rcases List.mem_append.mp hd with hd' | hd'
      · exact escapeMap_no_markup c d hd'
      · exact ih d hd'
  · show noBareAmp (s.data.map escapeMap).flatten = true
    induction s.data with
    | nil => rfl
    | cons c cs ih =>
      simp only [List.map_cons, List.flatten_cons]
      exact noBareAmp_escapeMap_append c _ ih

/-- Witness for C2 at a concrete string: the escaped form of a string
    holding a less-than sign and an ampersand, its bare-ampersand
    check, and the markup-freedom of one of its output characters. -/
theorem escapeHtml_spec_witness :
    escapeHtml "a<b&c" = "a&lt;b&amp;c" ∧
    noBareAmp (escapeHtml "a<b&c").data = true ∧
    ('a' ≠ '<' ∧ 'a' ≠ '>' ∧ 'a' ≠ '"' ∧ 'a' ≠ '\'') :=
  ⟨by decide, (escapeHtml_spec "a<b&c").2.1,
    (escapeHtml_spec "a<b&c").1 'a' (by decide)⟩

/-- C3: validateImageFile succeeds exactly on present files with an
    allowed MIME type and size at most the configured maximum; a
    disallowed type yields the type message, an allowed type over the
    maximum yields the size message; concretely a 10MB png passes, a
    1KB text file fails with the type message, and an absent file
    fails. -/
theorem validateImageFile_spec :
    (∀ f : Option JFile,
      ((validateImageFile f).valid = true ↔
        ∃ file, f = some file ∧ file.type ∈ allowedImageTypes ∧ file.size ≤ maxFileSize) ∧
      (∀ file, f = some file → file.type ∉ allowedImageTypes →
        validateImageFile f = { valid := false, message := badTypeMsg }) ∧
      (∀ file, f = some file → file.type ∈ allowedImageTypes → maxFileSize < file.size →
        validateImageFile f = { valid := false, message := tooBigMsg })) ∧
    (validateImageFile (some { type := "image/png", size := 10485760 })).valid = true ∧
    validateImageFile (some { type := "text/plain", size := 1024 }) =
      { valid := false, message := badTypeMsg } ∧
    validateImageFile none = { valid := false, message := noFileMsg } := by
  refine ⟨fun f => ⟨?_, ?_, ?_⟩, by decide, by decide, rfl⟩
  · cases f with
    | none => simp [validateImageFile]
    | some file =>
      simp only [validateImageFile]
      by_cases ht : file.type ∈ allowedImageTypes
      · rw [if_neg (by simp [ht])]
        by_cases hs : maxFileSize < file.size
        · rw [if_pos hs]
          constructor
          · intro hf; simp at hf
          · rintro ⟨file2, hf2, hmem, hsz⟩
            cases hf2
            omega
        · rw [if_neg hs]
          constructor
          · intro _
            refine ⟨file, rfl, ht, ?_⟩
            omega
          · intro _; rfl
      · rw [if_pos (by simp [ht])]
        constructor
        · intro hf; simp at hf
        · rintro ⟨file2, hf2, hmem, hsz⟩
          cases hf2
          exact absurd hmem ht
  · intro file hf hmem
    cases hf
    simp only [validateImageFile]
    rw [if_pos (by simpa using hmem)]
  · intro file hf hmem hsz
    cases hf
    simp only [validateImageFile]
    rw [if_neg (by simpa using hmem), if_pos hsz]

/-- Witness for C3: a 20MB png is rejected with the size message. -/
theorem validateImageFile_spec_witness :
    validateImageFile (some { type := "image/png", size := 20971520 }) =
      { valid := false, message := tooBigMsg } :=
  (validateImageFile_spec.1 _).2.2 _ rfl (by decide) (by decide)

/-- C5: the password custom validator checks, in order: length below
    six, then no ASCII letter, then no digit, the first failure
    supplying the message, and is valid otherwise; concretely a
    three-letter value fails as too short, a six-letter value fails as
    missing a digit, and a value of three letters and three digits
    passes. -/
theorem password_spec :
    (∀ s : String,
      (s.length < 6 → password s = { valid := false, message := passwordShortMsg }) ∧
      (¬ s.length < 6 → s.data.any Char.isAlpha = false →
        password s = { valid := false, message := passwordLetterMsg }) ∧
      (¬ s.length < 6 → s.data.any Char.isAlpha = true → s.data.any Char.isDigit = false →
        password s = { valid := false, message := passwordDigitMsg }) ∧
      (¬ s.length < 6 → s.data.any Char.isAlpha = true → s.data.any Char.isDigit = true →
        password s = { valid := true, message := "" })) ∧
    password "abc" = { valid := false, message := passwordShortMsg } ∧
    password "abcdef" = { valid := false, message := passwordDigitMsg } ∧
    password "abc123" = { valid := true, message := "" } := by
  refine ⟨fun s => ⟨?_, ?_, ?_, ?_⟩, by decide, by decide, by decide⟩
  · intro h1
    simp [password, h1]
  · intro h1 h2
    simp [password, h1, h2]
  · intro h1 h2 h3
    simp [password, h1, h2, h3]
  · intro h1 h2 h3
    simp [password, h1, h2, h3]

/-- Witness for C5: the rule chain applied at a concrete passing
    value. -/
theorem password_spec_witness :
    password "abcd12" = { valid := true, message := "" } :=
  (password_spec.1 "abcd12").2.2.2 (by decide) (by decide) (by decide)

/-- C6 counterexample: restoring a button that was never put into the
    loading state is not a no-op on the button state: the source
    unconditionally re-enables the button, so a disabled button with no
    stashed markup comes back changed. -/
theorem setButtonLoading_restore_counterexample :
    (Button.mk "Salvar" true none).originalText = none ∧
    setButtonLoading (Button.mk "Salvar" true none) false "Carregando..." ≠
      Button.mk "Salvar" true none ∧
    (setButtonLoading (Button.mk "Salvar" true none) false "Carregando...").disabled = false ∧
    (Button.mk "Salvar" true none).disabled = true := by decide

/-- C6 amended: with no stashed original-markup attribute, the restore
    call leaves the markup and the attribute unchanged and
    unconditionally clears the disabled flag; it is a full no-op
    exactly when the button was not disabled. -/
theorem setButtonLoading_restore_amended (b : Button) (t : String)
    (h : b.originalText = none) :
    setButtonLoading b false t = { b with disabled := false } ∧
    (b.disabled = false → setButtonLoading b false t = b) := by
  obtain ⟨ih, dis, ot⟩ := b
  simp only [Button.originalText] at h
  subst h
  constructor
  · rfl
  · intro hd
    simp only [Button.disabled] at hd
    subst hd
    rfl

/-- Witness for C6 at a concrete enabled button with no stash. -/
theorem setButtonLoading_restore_amended_witness :
    setButtonLoading (Button.mk "Enviar" false none) false "Processando..." =
      Button.mk "Enviar" false none :=
  (setButtonLoading_restore_amended (Button.mk "Enviar" false none) "Processando..." rfl).2 rfl

/-- C7: over a burst of calls, each arriving strictly before the
    pending timer of the previous call would fire, the debounced
    wrapper invokes the wrapped function exactly once, at the time of
    the last call plus the wait, with the arguments of the last call. -/
theorem debounce_single_burst {α : Type} (wait : ℕ) (calls : List (ℕ × α))
    (p : ℕ × α) (hgaps : burstGaps wait calls = true)
    (hlast : calls.getLast? = some p) :
    debounceRun wait calls = [(p.1 + wait, p.2)] := by
  induction calls with
  | nil => simp at hlast
  | cons x rest ih =>
    cases rest with
    | nil =>
      obtain ⟨t, a⟩ := x
      simp only [List.getLast?_singleton, Option.some.injEq] at hlast
      subst hlast
      rfl
    | cons y rest2 =>
      obtain ⟨t, a⟩ := x
      obtain ⟨t2, b⟩ := y
      have hg : t2 < t + wait ∧ burstGaps wait ((t2, b) :: rest2) = true := by
        simpa [burstGaps] using hgaps
      rw [List.getLast?_cons_cons] at hlast
      have hrec := ih hg.2 hlast
      simpa [debounceRun, hg.1] using hrec

/-- Witness for C7: the spec's concrete timeline, calls at 0, 50 and
    100 ms with a 300 ms wait, fires once at 400 ms with the last
    call's argument. -/
theorem debounce_single_burst_witness :
    debounceRun 300 [((0 : ℕ), (10 : ℕ)), (50, 20), (100, 30)] = [(400, 30)] := by
  simpa using debounce_single_burst 300 [((0 : ℕ), (10 : ℕ)), (50, 20), (100, 30)]
    (100, 30) (by decide) (by decide)

/-- C8 counterexample: the source installs plain click listeners with
    no once-guard and removes the modal only on the hidden
    notification, so a run delivering a confirm click and then a cancel
    click before the modal is removed fires both callbacks, and a run
    with two confirm clicks fires the confirm callback twice. -/
theorem showConfirmModal_both_fire_counterexample :
    showConfirmModalRun (ModalHandlers.mk true true)
        [MEvent.clickConfirm, MEvent.clickCancel, MEvent.hiddenEvt] =
      [CbKind.confirm, CbKind.cancel] ∧
    showConfirmModalRun (ModalHandlers.mk true true)
        [MEvent.clickConfirm, MEvent.clickConfirm, MEvent.hiddenEvt] =
      [CbKind.confirm, CbKind.confirm] := by decide

/-- C8 amended: on every run in which at most one button click is
    delivered before the modal is removed, at most one callback fires
    (so exactly one of confirm or cancel, or neither on outside
    dismissal), and a callback can only fire when it was passed; the
    exactly-once guarantee does not extend to runs with several clicks
    before removal, as the counterexample shows. -/
theorem showConfirmModal_at_most_one_amended (h : ModalHandlers)
    (events : List MEvent) (hone : countClicks events ≤ 1) :
    (showConfirmModalRun h events).length ≤ 1 ∧
    (CbKind.confirm ∈ showConfirmModalRun h events → h.onConfirm = true) ∧
    (CbKind.cancel ∈ showConfirmModalRun h events → h.onCancel = true) := by
  cases events with
  | nil => simp [showConfirmModalRun, modalRun]
  | cons e es =>
    cases e with
    | hiddenEvt =>
      simp [showConfirmModalRun, modalRun, modalRun_detached]
    | clickConfirm =>
      have hz : countClicks es = 0 := by
        simp only [countClicks, List.takeWhile_cons, List.countP_cons] at hone ⊢
        simp at hone ⊢
        exact hone
      have hnil := modalRun_nil_of_no_clicks h es hz
      by_cases hc : h.onConfirm <;>
        simp [showConfirmModalRun, modalRun, hnil, hc]
    | clickCancel =>
      have hz : countClicks es = 0 := by
        simp only [countClicks, List.takeWhile_cons, List.countP_cons] at hone ⊢
        simp at hone ⊢
        exact hone
      have hnil := modalRun_nil_of_no_clicks h es hz
      by_cases hc : h.onCancel <;>
        simp [showConfirmModalRun, modalRun, hnil, hc]

/-- Witness for C8 at a concrete single-cancel run. -/
theorem showConfirmModal_at_most_one_amended_witness :
    (showConfirmModalRun (ModalHandlers.mk true true)
        [MEvent.clickCancel, MEvent.hiddenEvt]).length ≤ 1 ∧
    (CbKind.confirm ∈ showConfirmModalRun (ModalHandlers.mk true true)
        [MEvent.clickCancel, MEvent.hiddenEvt] →
      (ModalHandlers.mk true true).onConfirm = true) ∧
    (CbKind.cancel ∈ showConfirmModalRun (ModalHandlers.mk true true)
        [MEvent.clickCancel, MEvent.hiddenEvt] →
      (ModalHandlers.mk true true).onCancel = true) :=
  showConfirmModal_at_most_one_amended (ModalHandlers.mk true true)
    [MEvent.clickCancel, MEvent.hiddenEvt] (by decide)

/-- C10: the global window.showConfirmModal wrapper forwards its one
    callback only as the confirm handler and passes no cancel handler,
    so on every run a cancel click invokes no callback: the cancel
    callback never fires, and a run without confirm clicks fires
    nothing at all. -/
theorem windowShowConfirmModal_no_cancel (cb : Bool) (events : List MEvent) :
    (windowModalHandlers cb).onCancel = false ∧
    CbKind.cancel ∉ showConfirmModalRun (windowModalHandlers cb) events ∧
    ((∀ e ∈ events, e ≠ MEvent.clickConfirm) →
      showConfirmModalRun (windowModalHandlers cb) events = []) :=
  ⟨rfl, modalRun_cancel_not_mem _ rfl _ _,
    fun hno => modalRun_nil_of_no_confirm _ rfl _ _ hno⟩

/-- Witness for C10: a run of two cancel clicks then dismissal invokes
    nothing. -/
theorem windowShowConfirmModal_no_cancel_witness :
    showConfirmModalRun (windowModalHandlers true)
      [MEvent.clickCancel, MEvent.clickCancel, MEvent.hiddenEvt] = [] :=
  (windowShowConfirmModal_no_cancel true
    [MEvent.clickCancel, MEvent.clickCancel, MEvent.hiddenEvt]).2.2 (by decide)

/-- C1 counterexample: the rules of validateField do not short-circuit,
    and a later failing rule overwrites the message, so a required
    empty field carrying a data-validate attribute whose validator
    rejects the empty value displays that validator's message, not the
    required-field message, contradicting the claim that the required
    message is displayed regardless of any other constraint. -/
theorem validateField_required_custom_counterexample :
    (Field.mk "" true "text" none none (some "username")).required = true ∧
    (Field.mk "" true "text" none none (some "username")).value = "" ∧
    validateField (Field.mk "" true "text" none none (some "username")) =
      (false, usernameMsg) ∧
    usernameMsg ≠ requiredFieldMsg := by decide

/-- C1 amended: validateField on a required field whose trimmed value
    is empty always reports the field invalid; the displayed message is
    the one of the last failing rule, so it is the required-field
    message whenever the field declares no custom validator (a
    registered custom validator that rejects the empty value overwrites
    the message with its own). -/
theorem validateField_required_empty_amended (f : Field) (hreq : f.required = true)
    (hempty : jsTrim f.value = "") :
    (validateField f).1 = false ∧
    (f.dataValidate = none → validateField f = (false, requiredFieldMsg)) :=
  validateField_invalid_of_required_empty f hreq hempty

/-- Witness for C1 at a concrete whitespace-only required field with
    length constraints and no custom validator. -/
theorem validateField_required_empty_amended_witness :
    (validateField (Field.mk "   " true "text" (some 3) (some 10) none)).1 = false ∧
    ((Field.mk "   " true "text" (some 3) (some 10) none).dataValidate = none →
      validateField (Field.mk "   " true "text" (some 3) (some 10) none) =
        (false, requiredFieldMsg)) :=
  validateField_required_empty_amended (Field.mk "   " true "text" (some 3) (some 10) none)
    rfl (by decide)

/-- C9: every rule of validateField evaluates the whitespace-trimmed
    value: the outcome depends on the raw value only through its
    trimmed form, a required whitespace-only value is reported invalid
    as empty, and the minimum-length and maximum-length rules measure
    the trimmed length, not the raw length. -/
theorem validateField_trimmed_spec :
    (∀ f : Field, ∀ v : String, jsTrim v = jsTrim f.value →
      validateField { f with value := v } = validateField f) ∧
    (∀ f : Field, f.required = true → f.value.data.all isJsWs = true →
      (validateField f).1 = false ∧
      (f.dataValidate = none → validateField f = (false, requiredFieldMsg))) ∧
    (∀ v : String, ∀ m : ℕ, 0 < (jsTrim v).length → (jsTrim v).length < m →
      validateField (Field.mk v false "text" (some m) none none) = (false, minMsg m)) ∧
    (∀ v : String, ∀ m : ℕ, m < (jsTrim v).length →
      validateField (Field.mk v false "text" none (some m) none) = (false, maxMsg m)) := by
  refine ⟨?_, ?_, ?_, ?_⟩
  · intro f v hv
    obtain ⟨v0, req, ty, mn, mx, dv⟩ := f
    simp only [Field.value] at hv
    simp only [validateField, hv]
  · intro f hreq hws
    exact validateField_invalid_of_required_empty f hreq
      (jsTrim_empty_of_all_ws f.value hws)
  · intro v m h1 h2
    have hne : jsTrim v ≠ "" := by
      intro hcon
      rw [hcon] at h1
      simp at h1
    simp [validateField, h1, h2, hne]
  · intro v m h1
    have h0 : 0 < (jsTrim v).length := by omega
    have hne : jsTrim v ≠ "" := by
      intro hcon
      rw [hcon] at h0
      simp at h0
    by_cases h2 : (jsTrim v).length < m
    · omega
    · simp [validateField, h1, h2, hne]

/-- Witness for C9 at concrete fields whose raw length passes but whose
    trimmed length fails the bound, and conversely. -/
theorem validateField_trimmed_spec_witness :
    validateField (Field.mk "  ab  " false "text" (some 3) none none) =
      (false, minMsg 3) ∧
    validateField (Field.mk " abcd " false "text" none (some 3) none) =
      (false, maxMsg 3) ∧
    validateField (Field.mk "ab    " false "text" (some 3) none none) =
      validateField (Field.mk "  ab  " false "text" (some 3) none none) :=
  ⟨validateField_trimmed_spec.2.2.1 "  ab  " 3 (by decide) (by decide),
    validateField_trimmed_spec.2.2.2 " abcd " 3 (by decide),
    validateField_trimmed_spec.1 (Field.mk "  ab  " false "text" (some 3) none none)
      "ab    " (by decide)⟩

/-- C4 counterexample: for byte counts of a tebibyte and beyond the
    floor of the base-1024 logarithm is at least four, the sizes array
    has no element there, and string concatenation of the missing
    element produces the literal text undefined instead of a unit from
    the set Bytes, KB, MB, GB; so the claim fails on such inputs. -/
theorem formatBytes_unit_counterexample :
    formatBytes (1024 ^ 4) = "1 undefined" := by
  have hlog : Nat.log 1024 (1024 ^ 4) = 4 := Nat.log_pow (by norm_num) 4
  have hnum : fbNum (1024 ^ 4) 2 = 100 := by
    unfold fbNum
    rw [hlog]
    rw [show (((1024 ^ 4 : ℕ) : ℚ) / 1024 ^ 4 * 10 ^ 2) = ((100 : ℤ) : ℚ) by
      push_cast; norm_num]
    rw [round_intCast]
    rfl
  calc formatBytes (1024 ^ 4)
      = decRender (fbNum (1024 ^ 4) 2) 2 ++ " " ++
        sizes.getD (Nat.log 1024 (1024 ^ 4)) "undefined" := by
        unfold formatBytes
        rw [if_neg (by norm_num)]
    _ = "1 undefined" := by
        rw [hlog, hnum]
        decide

/-- C4 amended: formatBytes 0 is the literal zero string, and for
    every positive byte count below 1024 to the fourth power the
    result is the rendered rounded value, a space, and the base-1024
    unit selected by the floor of the base-1024 logarithm from the
    four-element unit list, where the rounded value, read back as the
    rational it denotes, lies within half of one hundredth of
    bytes / 1024 to that floor; for a tebibyte and above no unit
    exists and the source appends the text undefined instead. -/
theorem formatBytes_spec (b : ℕ) (h1 : 0 < b) (h2 : b < 1024 ^ 4) :
    Nat.log 1024 b < sizes.length ∧
    formatBytes b = decRender (fbNum b 2) 2 ++ " " ++
      sizes.getD (Nat.log 1024 b) "undefined" ∧
    |((fbNum b 2 : ℚ)) / 100 - (b : ℚ) / 1024 ^ Nat.log 1024 b| ≤ 1 / 200 ∧
    formatBytes 0 = "0 Bytes" := by
  refine ⟨?_, ?_, ?_, rfl⟩
  · have h3 : Nat.log 1024 b < 4 := Nat.log_lt_of_lt_pow h1.ne' h2
    simpa [sizes] using h3
  · unfold formatBytes
    rw [if_neg h1.ne']
  · have hr0 : (0 : ℤ) ≤ round ((b : ℚ) / 1024 ^ Nat.log 1024 b * 10 ^ 2) := by
      rw [round_eq]
      exact Int.le_floor.mpr (by positivity)
    have hcast : ((fbNum b 2 : ℕ) : ℚ) =
        ((round ((b : ℚ) / 1024 ^ Nat.log 1024 b * 10 ^ 2) : ℤ) : ℚ) := by
      unfold fbNum
      exact_mod_cast congrArg (fun z : ℤ => (z : ℚ)) (Int.toNat_of_nonneg hr0)
    rw [hcast]
    exact round_div_100_close ((b : ℚ) / 1024 ^ Nat.log 1024 b)

/-- Witness for C4 at one mebibyte: one MB exactly, within tolerance. -/
theorem formatBytes_spec_witness :
    Nat.log 1024 1048576 < sizes.length ∧
    formatBytes 1048576 = decRender (fbNum 1048576 2) 2 ++ " " ++
      sizes.getD (Nat.log 1024 1048576) "undefined" ∧
    |((fbNum 1048576 2 : ℚ)) / 100 - (1048576 : ℚ) / 1024 ^ Nat.log 1024 1048576| ≤ 1 / 200 ∧
    formatBytes 0 = "0 Bytes" :=
  formatBytes_spec 1048576 (by norm_num) (by norm_num)

end Brainchild
